import Mathlib

/-!
Shallow embedding of `src/switcher.py` (fcmildef/camswitcher): device-selection
validation (`on_start`, lines 213-229), pipeline construction (`build_pipeline`,
lines 334-479, with its inner helpers `make_input_branch`, `link_chain`,
`link_branch`, `tee_link`), teardown (`teardown_pipeline`, lines 481-487),
runtime input switching (`switch_to`, lines 489-499) and the defaults
persistence data (`on_save_defaults` lines 272-287 / `load_defaults` lines
315-332).

External GStreamer behaviour (element factory availability, link outcomes,
pad-request outcomes, pipeline start outcome) and `os.access` are modelled by
an explicit environment `Env`; each `Gst.ElementFactory.make` call site is
also recorded in a probe log so that "never instantiates X" properties can be
stated.  Python exceptions that the code does not catch are modelled by the
`PyExc` side of `Except` / `PyResult`; error message strings are abstracted to
the inductive `BuildErr`, one constructor per `return False, "..."` site of the
source (the source message is quoted in each constructor's comment).
-/

namespace Switcher

/-- Model of a GStreamer element: its factory kind, its instance name, and the
properties the source code sets on it (`device` for sources/sinks, `caps` for
the capsfilter). -/
structure Element where
  factory : String
  name : String
  device : Option String := none
  caps : Option String := none
deriving DecidableEq

/-- Model of a GStreamer request pad: which element owns it and the ordinal of
the request at its call site. -/
structure Pad where
  owner : String
  idx : Nat
deriving DecidableEq

/-- Error kinds for the `return False, "..."` sites of `build_pipeline`, one
constructor per source message (quoted in the comments). -/
inductive BuildErr where
  /-- line 339: Missing GStreamer input-selector (install gstreamer1.0-plugins-bad). -/
  | missingInputSelector
  /-- lines 354-355: No preview sink available. Install gstreamer1.0-gtk4 for embedded preview or gstreamer1.0-gl for external preview. -/
  | noPreviewSinkAvailable
  /-- line 362: Missing v4l2sink (install base/good plugins). -/
  | missingV4l2sink
  /-- line 376 (raised, then caught at 389-390): Missing v4l2src. -/
  | missingV4l2src
  /-- line 426: Failed to link inputs to selector. -/
  | failedLinkInputsToSelector
  /-- line 430: Failed to link selector to tee. -/
  | failedLinkSelectorToTee
  /-- line 447: Failed to request/link tee pad for preview. -/
  | failedTeePadPreview
  /-- line 449: Failed to request/link tee pad for output. -/
  | failedTeePadOutput
  /-- line 454: Failed to link preview branch. -/
  | failedLinkPreviewBranch
  /-- line 456: Failed to link output branch. -/
  | failedLinkOutputBranch
deriving DecidableEq

/-- Python exceptions that can escape the code uncaught: `RuntimeError` raised
by `make_input_branch` (carrying the error it reports), `AttributeError` from
calling a method on `None`, and `TypeError` from passing `None` where a
`Gst.Element` is expected. -/
inductive PyExc where
  | runtimeError (e : BuildErr)
  | attributeError
  | typeError
deriving DecidableEq

/-- Outcome of running a Python function that may either return a value or let
an uncaught exception escape. -/
inductive PyResult (α : Type) where
  | ret (val : α)
  | exc (e : PyExc)
deriving DecidableEq

/-- Environment abstracting the external collaborators: GStreamer factory
availability, link and pad-request outcomes (indexed by element names and by
the ordinal of the request at its call site), `os.access(out, W_OK)`, and the
result of `pipeline.set_state(PLAYING)`. -/
structure Env where
  avail : String → Bool
  writable : String → Bool
  linkOk : String → String → Bool
  selRequestOk : Nat → Bool
  selPadLinkOk : String → Bool
  teeRequestOk : Nat → Bool
  teePadLinkOk : String → Bool
  startOk : Bool

/-- Mutable state of `SwitcherWindow` relevant to the core: the pipeline (with
the elements added to it), the selector, the preview sink, the two selector
request pads, the active camera index, the selector's `active-pad` property
(a property of the current selector object), and the two per-camera status
indicator classes set by `_set_cam_status`. -/
structure AppState where
  pipeline : Option (List Element)
  input_selector : Option Element
  preview_sink : Option Element
  pad_cam1 : Option Pad
  pad_cam2 : Option Pad
  active_cam : Int
  selector_active_pad : Option Pad
  cam1_status : String
  cam2_status : String
deriving DecidableEq

/-- State of a freshly constructed `SwitcherWindow` (lines 67-72 and the
initial `_set_all_cam_status("idle")` at line 158). -/
def s0 : AppState :=
  { pipeline := none, input_selector := none, preview_sink := none,
    pad_cam1 := none, pad_cam2 := none, active_cam := 1,
    selector_active_pad := none, cam1_status := "idle", cam2_status := "idle" }

/-- Model of `Gst.ElementFactory.make(factory, name)`: succeeds iff the
environment has the factory installed. -/
def gstMake (env : Env) (factory name : String) : Option Element :=
  if env.avail factory then some { factory := factory, name := name } else none

/-- The hard-coded caps string of `make_input_branch` (line 382), pinning one
common pixel format, frame rate and resolution for both input branches. -/
def formatCaps : String := "video/x-raw,format=YUY2,framerate=30/1,width=1280,height=720"

/-- Embedding of `make_input_branch` (lines 373-384).  Returns the list of
factories passed to `ElementFactory.make` (in call order) together with the
branch element list, or the Python exception that escapes: a missing
`v4l2src` raises `RuntimeError` (caught by the caller), while a missing
`capsfilter` makes `caps.set_property` (line 382) raise `AttributeError`
on `None`, which nothing catches.  The other stages are not None-checked by
the source; a missing one simply leaves `None` in the returned list. -/
def make_input_branch (env : Env) (name device : String) :
    List String × Except PyExc (List (Option Element)) :=
  match gstMake env "v4l2src" ("src_" ++ name) with
  | none => (["v4l2src"], .error (.runtimeError .missingV4l2src))
  | some src0 =>
    let src := { src0 with device := some device }
    let conv := gstMake env "videoconvert" ("conv_" ++ name)
    let scale := gstMake env "videoscale" ("scale_" ++ name)
    let rate := gstMake env "videorate" ("rate_" ++ name)
    match gstMake env "capsfilter" ("caps_" ++ name) with
    | none =>
      (["v4l2src", "videoconvert", "videoscale", "videorate", "capsfilter"],
       .error .attributeError)
    | some caps0 =>
      let caps := { caps0 with caps := some formatCaps }
      let q := gstMake env "queue" ("q_" ++ name)
      (["v4l2src", "videoconvert", "videoscale", "videorate", "capsfilter", "queue"],
       .ok [some src, conv, scale, rate, some caps, q])

/-- Embedding of the inner `link_chain` (lines 401-405): link consecutive
elements, failing fast; `Gst.Element.link` applied to `None` raises
`TypeError`. -/
def link_chain (env : Env) : List (Option Element) → Except PyExc Bool
  | [] => .ok true
  | [_] => .ok true
  | a :: b :: rest =>
    match a, b with
    | some ea, some eb =>
      if env.linkOk ea.name eb.name then link_chain env (b :: rest) else .ok false
    | _, _ => .error .typeError

/-- Embedding of the inner `link_branch` (lines 408-421): link the chain, then
request a sink pad on the selector (`reqIdx` is the ordinal of this request
call site) and link the last queue's src pad into it; any `None` along the way
yields the corresponding Python exception. -/
def link_branch (env : Env) (branch : List (Option Element)) (reqIdx : Nat) :
    Except PyExc (Option Pad) :=
  match link_chain env branch with
  | .error e => .error e
  | .ok false => .ok none
  | .ok true =>
    if env.selRequestOk reqIdx then
      match branch.getLast? with
      | none => .error .attributeError
      | some none => .error .attributeError
      | some (some q) =>
        if env.selPadLinkOk q.name then .ok (some ⟨"isel", reqIdx⟩) else .ok none
    else .ok none

/-- Embedding of the inner `tee_link` (lines 433-443): request a src pad on the
tee (`reqIdx` is the ordinal of this request call site) and link it to the
queue's sink pad; `queue_el.get_static_pad` on `None` raises
`AttributeError`. -/
def tee_link (env : Env) (reqIdx : Nat) (queue : Option Element) : Except PyExc Bool :=
  if env.teeRequestOk reqIdx then
    match queue with
    | none => .error .attributeError
    | some q => .ok (env.teePadLinkOk q.name)
  else .ok false

/-- Embedding of `build_pipeline` from the element-adding step onwards (lines
392-479): add every non-`None` element, link both input branches into the
selector, link selector to tee, request/link the tee pads, finish the preview
and output branches, and finally set the selector's initial `active-pad` to
cam1's pad and `active_cam` to 1.  `psink` is the preview sink chosen earlier
(the value of `self.preview_sink` at this point). -/
def link_phase (env : Env) (s : AppState) (preview_enabled : Bool)
    (br1 br2 : List (Option Element)) (isel : Element)
    (tee q_out out_convert : Option Element) (out_sink : Element)
    (q_preview preview_convert psink : Option Element) :
    PyResult (Bool × Option BuildErr) × AppState :=
  let pipeline_elements := br1 ++ br2 ++ [some isel, tee, q_out, out_convert, some out_sink]
      ++ (if preview_enabled then [q_preview, preview_convert, psink] else [])
  let s := { s with pipeline := some (pipeline_elements.filterMap id) }
  match link_branch env br1 0 with
  | .error e => (.exc e, s)
  | .ok pad1 =>
    let s := { s with pad_cam1 := pad1 }
    match link_branch env br2 1 with
    | .error e => (.exc e, s)
    | .ok pad2 =>
      let s := { s with pad_cam2 := pad2 }
      if pad1.isNone || pad2.isNone then
        (.ret (false, some .failedLinkInputsToSelector), s)
      else
        match tee with
        | none => (.exc .typeError, s)
        | some teeE =>
          if !(env.linkOk isel.name teeE.name) then
            (.ret (false, some .failedLinkSelectorToTee), s)
          else
            match (if preview_enabled then tee_link env 0 q_preview else .ok true) with
            | .error e => (.exc e, s)
            | .ok false => (.ret (false, some .failedTeePadPreview), s)
            | .ok true =>
              match tee_link env (if preview_enabled then 1 else 0) q_out with
              | .error e => (.exc e, s)
              | .ok false => (.ret (false, some .failedTeePadOutput), s)
              | .ok true =>
                match (if preview_enabled then
                        link_chain env [q_preview, preview_convert, psink]
                       else .ok true) with
                | .error e => (.exc e, s)
                | .ok false => (.ret (false, some .failedLinkPreviewBranch), s)
                | .ok true =>
                  match link_chain env [q_out, out_convert, some out_sink] with
                  | .error e => (.exc e, s)
                  | .ok false => (.ret (false, some .failedLinkOutputBranch), s)
                  | .ok true =>
                    (.ret (true, none),
                     { s with selector_active_pad := s.pad_cam1, active_cam := 1 })

/-- Result of `build_pipeline`: the returned `(bool, err)` pair or the escaping
exception, the window state as the method leaves it, and the factories passed
to `ElementFactory.make`, in call order. -/
structure BuildOut where
  result : PyResult (Bool × Option BuildErr)
  state : AppState
  probes : List String
deriving DecidableEq

/-- Embedding of `build_pipeline` lines 359-479 (everything after the preview
sink choice): output sink, tee and queues, the two input branches (the
`try ... except RuntimeError` of lines 386-390 catches only `RuntimeError`;
`AttributeError` from a missing capsfilter escapes), then `link_phase`. -/
def build_core (env : Env) (s : AppState) (preview_enabled : Bool)
    (dev1 dev2 out_dev : String) (psink : Option Element) (isel : Element) : BuildOut :=
  let out_convert := gstMake env "videoconvert" "outconvert"
  match gstMake env "v4l2sink" "outsink" with
  | none => ⟨.ret (false, some .missingV4l2sink), s, ["videoconvert", "v4l2sink"]⟩
  | some out_sink0 =>
    let out_sink := { out_sink0 with device := some out_dev }
    let tee := gstMake env "tee" "tee"
    let q_out := gstMake env "queue" "qout"
    let q_preview := if preview_enabled then gstMake env "queue" "qprev" else none
    let preview_convert :=
      if preview_enabled then gstMake env "videoconvert" "prevconvert" else none
    let prevProbes : List String := if preview_enabled then ["queue", "videoconvert"] else []
    let b1 := make_input_branch env "cam1" dev1
    match b1.2 with
    | .error (.runtimeError m) =>
      ⟨.ret (false, some m), s, ["videoconvert", "v4l2sink", "tee", "queue"] ++ prevProbes ++ b1.1⟩
    | .error e =>
      ⟨.exc e, s, ["videoconvert", "v4l2sink", "tee", "queue"] ++ prevProbes ++ b1.1⟩
    | .ok br1 =>
      let b2 := make_input_branch env "cam2" dev2
      let probes := ["videoconvert", "v4l2sink", "tee", "queue"] ++ prevProbes ++ b1.1 ++ b2.1
      match b2.2 with
      | .error (.runtimeError m) => ⟨.ret (false, some m), s, probes⟩
      | .error e => ⟨.exc e, s, probes⟩
      | .ok br2 =>
        let r := link_phase env s preview_enabled br1 br2 isel tee q_out out_convert
                   out_sink q_preview preview_convert psink
        ⟨r.1, r.2, probes⟩

/-- Embedding of the preview sink choice (lines 348-356): probe
`gtk4paintablesink`, then `glimagesink`, then `autovideosink`; first success
wins.  Returns the probed factories in order and the chosen sink. -/
def pick_preview_sink (env : Env) : List String × Option Element :=
  match gstMake env "gtk4paintablesink" "preview" with
  | some p => (["gtk4paintablesink"], some p)
  | none =>
    match gstMake env "glimagesink" "preview" with
    | some p => (["gtk4paintablesink", "glimagesink"], some p)
    | none =>
      (["gtk4paintablesink", "glimagesink", "autovideosink"],
       gstMake env "autovideosink" "preview")

/-- Embedding of `build_pipeline` (lines 334-479): fresh pipeline, selector
(failure returns before the preview step), preview sink probing only when
`preview_enabled`, then `build_core`. -/
def build_pipeline (env : Env) (s : AppState) (preview_enabled : Bool)
    (dev1 dev2 out_dev : String) : BuildOut :=
  let s := { s with pipeline := some [] }
  match gstMake env "input-selector" "isel" with
  | none =>
    ⟨.ret (false, some .missingInputSelector),
     { s with input_selector := none, selector_active_pad := none },
     ["input-selector"]⟩
  | some isel =>
    let s := { s with input_selector := some isel, selector_active_pad := none }
    if preview_enabled then
      let pick := pick_preview_sink env
      let s := { s with preview_sink := pick.2 }
      match pick.2 with
      | none =>
        ⟨.ret (false, some .noPreviewSinkAvailable), s, "input-selector" :: pick.1⟩
      | some _ =>
        let out := build_core env s true dev1 dev2 out_dev pick.2 isel
        ⟨out.result, out.state, "input-selector" :: (pick.1 ++ out.probes)⟩
    else
      let s := { s with preview_sink := none }
      let out := build_core env s false dev1 dev2 out_dev none isel
      ⟨out.result, out.state, "input-selector" :: out.probes⟩

/-- Embedding of `teardown_pipeline` (lines 481-487): if a pipeline exists,
drop it (releasing its elements) and clear the selector and pad references. -/
def teardown_pipeline (s : AppState) : AppState :=
  if s.pipeline.isSome then
    { s with pipeline := none, input_selector := none, pad_cam1 := none, pad_cam2 := none }
  else s

/-- Embedding of `_set_cam_status` (lines 513-527): row 1 for `cam_idx == 1`,
row 2 otherwise. -/
def set_cam_status (s : AppState) (cam_idx : Int) (st : String) : AppState :=
  if cam_idx == 1 then { s with cam1_status := st } else { s with cam2_status := st }

/-- Embedding of `_set_all_cam_status` (lines 529-531). -/
def set_all_cam_status (s : AppState) (st : String) : AppState :=
  set_cam_status (set_cam_status s 1 st) 2 st

/-- Outcome tag for the three exit paths of `switch_to`: the silent return when
no pipeline or selector exists (the spec's `NoActivePipeline`), the error
status when the target pad is missing (the spec's `BranchUnavailable`), and a
completed switch. -/
inductive SwitchOutcome where
  | noPipeline
  | branchUnavailable
  | switched
deriving DecidableEq

/-- Embedding of `switch_to` (lines 489-499): silently return when no pipeline
or selector, pick `pad_cam1` when `cam_idx == 1` and `pad_cam2` otherwise,
set the error status if the pad is missing, else repoint the selector's
`active-pad`, record `active_cam := cam_idx` and set the ok status. -/
def switch_to (s : AppState) (cam_idx : Int) : AppState × SwitchOutcome :=
  if s.pipeline.isNone || s.input_selector.isNone then (s, .noPipeline)
  else
    match (if cam_idx == 1 then s.pad_cam1 else s.pad_cam2) with
    | none => (set_cam_status s cam_idx "error", .branchUnavailable)
    | some pad =>
      (set_cam_status
        { s with selector_active_pad := some pad, active_cam := cam_idx } cam_idx "ok",
       .switched)

/-- Error kinds of the four validation checks of `on_start` (lines 218-229). -/
inductive ValidationError where
  | incompleteSelection
  | outputCollidesWithInput
  | duplicateInputs
  | outputNotWritable
deriving DecidableEq

/-- Python truthiness of an optional string (`_get_selected` returns `None` or
a string; the empty string is falsy). -/
def truthy : Option String → Bool
  | none => false
  | some s => !s.isEmpty

/-- Embedding of the validation checks of `on_start` (lines 218-229), in
source order: all present, output differs from both inputs, inputs differ,
output writable; the first failing check returns its error. -/
def validate_selection (cam1 cam2 out : Option String) (writable : String → Bool) :
    Option ValidationError :=
  if !(truthy cam1 && truthy cam2 && truthy out) then some .incompleteSelection
  else if cam1 == out || cam2 == out then some .outputCollidesWithInput
  else if cam1 == cam2 then some .duplicateInputs
  else if !(writable (out.getD "")) then some .outputNotWritable
  else none

/-- Outcome tag for the exit paths of `on_start`: validation failure, build
returning `False` (teardown performed), `set_state(PLAYING)` failure (teardown
performed), an exception escaping the handler (no teardown), or success. -/
inductive StartResult where
  | validationFailed (e : ValidationError)
  | buildFailed (e : Option BuildErr)
  | startFailed
  | exception (e : PyExc)
  | started
deriving DecidableEq

/-- Embedding of `on_start` (lines 213-250): validate, build, start; on build
or start failure tear the pipeline down and set the error statuses; an
exception escaping `build_pipeline` skips all of that. -/
def on_start (env : Env) (s : AppState) (cam1 cam2 out : Option String)
    (preview_enabled : Bool) : AppState × StartResult :=
  match validate_selection cam1 cam2 out env.writable with
  | some e => (s, .validationFailed e)
  | none =>
    let b := build_pipeline env s preview_enabled (cam1.getD "") (cam2.getD "") (out.getD "")
    match b.result with
    | .exc e => (b.state, .exception e)
    | .ret (ok, err) =>
      if ok then
        if env.startOk then (set_all_cam_status b.state "ok", .started)
        else (set_all_cam_status (teardown_pipeline b.state) "error", .startFailed)
      else (set_all_cam_status (teardown_pipeline b.state) "error", .buildFailed err)

/-- Session is stopped: no pipeline, selector or pad references remain. -/
def isStopped (s : AppState) : Prop :=
  s.pipeline = none ∧ s.input_selector = none ∧ s.pad_cam1 = none ∧ s.pad_cam2 = none

instance (s : AppState) : Decidable (isStopped s) := by unfold isStopped; infer_instance

/-- JSON values occurring in the defaults file: null, strings, booleans. -/
inductive JsonVal where
  | null
  | str (s : String)
  | bool (b : Bool)
deriving DecidableEq

/-- The selection persisted by the settings store: the three device choices
(possibly unset) and the two flags. -/
structure Selection where
  cam1 : Option String
  cam2 : Option String
  out : Option String
  preview : Bool
  autoload : Bool
deriving DecidableEq

/-- A `None`-or-string widget value as JSON (what `json.dump` writes). -/
def optStrToJson : Option String → JsonVal
  | none => .null
  | some s => .str s

/-- Embedding of the dict built by `on_save_defaults` (lines 273-279), as an
association list in the literal's key order. -/
def save_defaults_data (sel : Selection) : List (String × JsonVal) :=
  [("cam1", optStrToJson sel.cam1), ("cam2", optStrToJson sel.cam2),
   ("out", optStrToJson sel.out), ("preview", .bool sel.preview),
   ("autoload", .bool sel.autoload)]

/-- Python `data.get(k)`: the value if the key is present, else `None`
(modelled as the default argument, `JsonVal.null` when omitted). -/
def jsonGet (data : List (String × JsonVal)) (k : String) : Option JsonVal :=
  (data.find? (fun p => p.1 == k)).map Prod.snd

/-- Python `bool(v)` on a JSON value: `None` and the empty string are falsy. -/
def pyBool : JsonVal → Bool
  | .null => false
  | .str s => !s.isEmpty
  | .bool b => b

/-- The device value `load_defaults` passes to `_select_value`: a string if the
key holds one, else `None` (absent key and JSON null both yield `None`). -/
def getStrField (data : List (String × JsonVal)) (k : String) : Option String :=
  match jsonGet data k with
  | some (.str s) => some s
  | _ => none

/-- Embedding of the reads of `load_defaults` (lines 323-327): the three device
values, `bool(data.get("preview", True))` and
`bool(data.get("autoload", False))`. -/
def load_defaults_data (data : List (String × JsonVal)) : Selection :=
  { cam1 := getStrField data "cam1", cam2 := getStrField data "cam2",
    out := getStrField data "out",
    preview := pyBool ((jsonGet data "preview").getD (.bool true)),
    autoload := pyBool ((jsonGet data "autoload").getD (.bool false)) }

/-- A JSON value that is a string or null (the type the spec requires for the
three device keys). -/
def isStrOrNull : JsonVal → Bool
  | .bool _ => false
  | _ => true

/-- A JSON value that is a boolean (the type the spec requires for the two
flag keys). -/
def isJsonBool : JsonVal → Bool
  | .bool _ => true
  | _ => false

/-- Environment in which every factory is installed, every link and pad
operation succeeds, every device is writable and the pipeline starts. -/
def envGood : Env :=
  { avail := fun _ => true, writable := fun _ => true, linkOk := fun _ _ => true,
    selRequestOk := fun _ => true, selPadLinkOk := fun _ => true,
    teeRequestOk := fun _ => true, teePadLinkOk := fun _ => true, startOk := true }

/-- Like `envGood` but with the `input-selector` factory missing. -/
def envNoIsel : Env := { envGood with avail := fun f => !(f == "input-selector") }

/-- Like `envGood` but with the `capsfilter` factory missing. -/
def envNoCaps : Env := { envGood with avail := fun f => !(f == "capsfilter") }

/-- Like `envGood` but with the `v4l2src` factory missing. -/
def envNoSrc : Env := { envGood with avail := fun f => !(f == "v4l2src") }

/-- A running-session state as produced by a successful build in `envGood`. -/
def sRun : AppState :=
  (build_pipeline envGood s0 false "/dev/video0" "/dev/video1" "/dev/video10").state

/-- The input branch built by `make_input_branch` for cam1 when every factory
is available. -/
def brGood : List (Option Element) :=
  [some { factory := "v4l2src", name := "src_cam1", device := some "/dev/video0" },
   some { factory := "videoconvert", name := "conv_cam1" },
   some { factory := "videoscale", name := "scale_cam1" },
   some { factory := "videorate", name := "rate_cam1" },
   some { factory := "capsfilter", name := "caps_cam1", caps := some formatCaps },
   some { factory := "queue", name := "q_cam1" }]

/-- Helper: an option whose `isNone` disjunction is false is `isSome`. -/
theorem isSome_of_or_isNone_false {a b : Option Pad}
    (h : ¬(a.isNone || b.isNone) = true) : a.isSome = true := by
  cases a <;> simp_all

/-- Helper: the result of `link_phase` does not depend on the incoming window
state (every field it reads is passed as an argument). -/
theorem link_phase_result_blind (env : Env) (pe : Bool)
    (br1 br2 : List (Option Element)) (isel : Element)
    (tee q_out oc : Option Element) (os : Element) (qp pc ps : Option Element)
    (s t : AppState) :
    (link_phase env s pe br1 br2 isel tee q_out oc os qp pc ps).1 =
    (link_phase env t pe br1 br2 isel tee q_out oc os qp pc ps).1 := by
  simp only [link_phase]
  repeat first | rfl | split

/-- Helper: `link_phase` always leaves a pipeline reference set (the element
adding at lines 396-398 happens before any of its exits). -/
theorem link_phase_pipeline_isSome (env : Env) (s : AppState) (pe : Bool)
    (br1 br2 : List (Option Element)) (isel : Element)
    (tee q_out oc : Option Element) (os : Element) (qp pc ps : Option Element) :
    (link_phase env s pe br1 br2 isel tee q_out oc os qp pc ps).2.pipeline.isSome = true := by
  simp only [link_phase]
  repeat first | rfl | split

/-- Helper: `link_phase` never writes the preview-sink reference. -/
theorem link_phase_preview_sink (env : Env) (s : AppState) (pe : Bool)
    (br1 br2 : List (Option Element)) (isel : Element)
    (tee q_out oc : Option Element) (os : Element) (qp pc ps : Option Element) :
    (link_phase env s pe br1 br2 isel tee q_out oc os qp pc ps).2.preview_sink =
      s.preview_sink := by
  simp only [link_phase]
  repeat first | rfl | split

/-- Helper: the result of `build_core` does not depend on the incoming window
state. -/
theorem build_core_result_blind (env : Env) (pe : Bool) (d1 d2 o : String)
    (ps : Option Element) (isel : Element) (s t : AppState) :
    (build_core env s pe d1 d2 o ps isel).result =
    (build_core env t pe d1 d2 o ps isel).result := by
  simp only [build_core]
  repeat first | rfl | apply link_phase_result_blind | split

/-- Helper: `build_core` keeps the pipeline reference set when it was set on
entry. -/
theorem build_core_pipeline_isSome (env : Env) (s : AppState) (pe : Bool) (d1 d2 o : String)
    (ps : Option Element) (isel : Element) (h : s.pipeline.isSome = true) :
    (build_core env s pe d1 d2 o ps isel).state.pipeline.isSome = true := by
  simp only [build_core]
  repeat first | exact h | apply link_phase_pipeline_isSome | split

/-- Helper: `build_core` never writes the preview-sink reference. -/
theorem build_core_preview_sink (env : Env) (s : AppState) (pe : Bool) (d1 d2 o : String)
    (ps : Option Element) (isel : Element) :
    (build_core env s pe d1 d2 o ps isel).state.preview_sink = s.preview_sink := by
  simp only [build_core]
  repeat first | rfl | apply link_phase_preview_sink | split

/-- Helper: the result of `build_pipeline` does not depend on the incoming
window state (the state a previous attempt left behind cannot change the
outcome of the next attempt). -/
theorem build_pipeline_result_blind (env : Env) (pe : Bool) (d1 d2 o : String)
    (s t : AppState) :
    (build_pipeline env s pe d1 d2 o).result = (build_pipeline env t pe d1 d2 o).result := by
  simp only [build_pipeline]
  repeat first | rfl | apply build_core_result_blind | split

/-- Helper: `build_pipeline` always leaves a pipeline reference set (line 335
runs before any exit). -/
theorem build_pipeline_pipeline_isSome (env : Env) (s : AppState) (pe : Bool)
    (d1 d2 o : String) :
    (build_pipeline env s pe d1 d2 o).state.pipeline.isSome = true := by
  simp only [build_pipeline]
  repeat first | rfl | (apply build_core_pipeline_isSome; rfl) | split

/-- Helper: when `link_phase` returns success, the state it leaves has
`active_cam = 1`, the selector's active pad set to cam1's pad, and cam1's pad
present. -/
theorem link_phase_success_state (env : Env) (s : AppState) (pe : Bool)
    (br1 br2 : List (Option Element)) (isel : Element)
    (tee q_out oc : Option Element) (os : Element) (qp pc ps : Option Element) :
    ∀ r s2, link_phase env s pe br1 br2 isel tee q_out oc os qp pc ps = (r, s2) →
      r = PyResult.ret (true, none) →
      s2.active_cam = 1 ∧ s2.selector_active_pad = s2.pad_cam1 ∧
        s2.pad_cam1.isSome = true := by
  intro r s2 heq hr
  simp only [link_phase] at heq
  repeat' split at heq
  all_goals rw [Prod.mk.injEq] at heq
  all_goals obtain ⟨rfl, rfl⟩ := heq
  all_goals simp at hr
  all_goals refine ⟨rfl, rfl, ?_⟩
  all_goals (apply isSome_of_or_isNone_false; assumption)

/-- Helper: when `build_core` returns success, the state it leaves has
`active_cam = 1`, the selector's active pad set to cam1's pad, and cam1's pad
present. -/
theorem build_core_success_state (env : Env) (s : AppState) (pe : Bool) (d1 d2 o : String)
    (ps : Option Element) (isel : Element)
    (hr : (build_core env s pe d1 d2 o ps isel).result = PyResult.ret (true, none)) :
    (build_core env s pe d1 d2 o ps isel).state.active_cam = 1 ∧
    (build_core env s pe d1 d2 o ps isel).state.selector_active_pad =
      (build_core env s pe d1 d2 o ps isel).state.pad_cam1 ∧
    (build_core env s pe d1 d2 o ps isel).state.pad_cam1.isSome = true := by
  have key : ∀ b : BuildOut, build_core env s pe d1 d2 o ps isel = b →
      b.result = PyResult.ret (true, none) →
      b.state.active_cam = 1 ∧ b.state.selector_active_pad = b.state.pad_cam1 ∧
        b.state.pad_cam1.isSome = true := by
    intro b heq hb
    simp only [build_core] at heq
    repeat' split at heq
    all_goals subst heq
    all_goals first
      | exact link_phase_success_state env s pe _ _ isel _ _ _ _ _ _ _ _ _ Prod.mk.eta.symm hb
      | simp at hb
  exact key _ rfl hr

/-- C5: immediately after `build_pipeline` returns success, active_cam is 1
and the selector's active-pad is cam1's pad (which is present): branch A is
always the default on start. -/
theorem build_pipeline_success_state (env : Env) (s : AppState) (pe : Bool)
    (d1 d2 o : String)
    (h : (build_pipeline env s pe d1 d2 o).result = PyResult.ret (true, none)) :
    (build_pipeline env s pe d1 d2 o).state.active_cam = 1 ∧
    (build_pipeline env s pe d1 d2 o).state.selector_active_pad =
      (build_pipeline env s pe d1 d2 o).state.pad_cam1 ∧
    (build_pipeline env s pe d1 d2 o).state.pad_cam1.isSome = true := by
  have key : ∀ b : BuildOut, build_pipeline env s pe d1 d2 o = b →
      b.result = PyResult.ret (true, none) →
      b.state.active_cam = 1 ∧ b.state.selector_active_pad = b.state.pad_cam1 ∧
        b.state.pad_cam1.isSome = true := by
    intro b heq hr
    simp only [build_pipeline] at heq
    repeat' split at heq
    all_goals subst heq
    all_goals first
      | exact build_core_success_state env _ _ d1 d2 o _ _ hr
      | simp at hr
  exact key _ rfl h

/-- Witness for C5: the successful `envGood` build yields active branch A. -/
theorem build_pipeline_success_state_witness :
    sRun.active_cam = 1 ∧ sRun.selector_active_pad = sRun.pad_cam1 ∧
      sRun.pad_cam1.isSome = true :=
  build_pipeline_success_state envGood s0 false "/dev/video0" "/dev/video1" "/dev/video10"
    (by decide)

/-- Helper: tearing down with a pipeline present clears all graph state. -/
theorem teardown_pipeline_stopped (s : AppState) (h : s.pipeline.isSome = true) :
    isStopped (teardown_pipeline s) := by
  unfold teardown_pipeline
  rw [if_pos h]
  exact ⟨rfl, rfl, rfl, rfl⟩

/-- Helper: setting the camera status indicators keeps a stopped session
stopped. -/
theorem set_all_cam_status_stopped (s : AppState) (st : String) (h : isStopped s) :
    isStopped (set_all_cam_status s st) := by
  obtain ⟨h1, h2, h3, h4⟩ := h
  unfold set_all_cam_status set_cam_status
  refine ⟨?_, ?_, ?_, ?_⟩ <;> simp [h1, h2, h3, h4]

/-- Helper: `on_start` on a validation failure returns immediately with the
state unchanged. -/
theorem on_start_eq_validationFailed (env : Env) (s : AppState) (c1 c2 o : Option String)
    (p : Bool) (e : ValidationError)
    (hv : validate_selection c1 c2 o env.writable = some e) :
    on_start env s c1 c2 o p = (s, StartResult.validationFailed e) := by
  simp only [on_start]
  rw [hv]

/-- Helper: when the build lets an exception escape, `on_start` propagates it
without tearing anything down. -/
theorem on_start_eq_exception (env : Env) (s : AppState) (c1 c2 o : Option String)
    (p : Bool) (ex : PyExc)
    (hv : validate_selection c1 c2 o env.writable = none)
    (hb : (build_pipeline env s p (c1.getD "") (c2.getD "") (o.getD "")).result =
      PyResult.exc ex) :
    on_start env s c1 c2 o p =
      ((build_pipeline env s p (c1.getD "") (c2.getD "") (o.getD "")).state,
       StartResult.exception ex) := by
  simp only [on_start]
  rw [hv, hb]

/-- Helper: when the build returns `False`, `on_start` tears down and reports
the build error. -/
theorem on_start_eq_buildFailed (env : Env) (s : AppState) (c1 c2 o : Option String)
    (p : Bool) (err : Option BuildErr)
    (hv : validate_selection c1 c2 o env.writable = none)
    (hb : (build_pipeline env s p (c1.getD "") (c2.getD "") (o.getD "")).result =
      PyResult.ret (false, err)) :
    on_start env s c1 c2 o p =
      (set_all_cam_status
        (teardown_pipeline (build_pipeline env s p (c1.getD "") (c2.getD "") (o.getD "")).state)
        "error",
       StartResult.buildFailed err) := by
  simp only [on_start]
  rw [hv, hb]
  simp

/-- Helper: when the build succeeds but `set_state(PLAYING)` fails, `on_start`
tears down and reports the start failure. -/
theorem on_start_eq_startFailed (env : Env) (s : AppState) (c1 c2 o : Option String)
    (p : Bool) (err : Option BuildErr)
    (hv : validate_selection c1 c2 o env.writable = none)
    (hb : (build_pipeline env s p (c1.getD "") (c2.getD "") (o.getD "")).result =
      PyResult.ret (true, err))
    (hs : env.startOk = false) :
    on_start env s c1 c2 o p =
      (set_all_cam_status
        (teardown_pipeline (build_pipeline env s p (c1.getD "") (c2.getD "") (o.getD "")).state)
        "error",
       StartResult.startFailed) := by
  simp only [on_start]
  rw [hv, hb, hs]
  simp

/-- Helper: when the build succeeds and the pipeline starts, `on_start`
reports success. -/
theorem on_start_eq_started (env : Env) (s : AppState) (c1 c2 o : Option String)
    (p : Bool) (err : Option BuildErr)
    (hv : validate_selection c1 c2 o env.writable = none)
    (hb : (build_pipeline env s p (c1.getD "") (c2.getD "") (o.getD "")).result =
      PyResult.ret (true, err))
    (hs : env.startOk = true) :
    on_start env s c1 c2 o p =
      (set_all_cam_status (build_pipeline env s p (c1.getD "") (c2.getD "") (o.getD "")).state
        "ok",
       StartResult.started) := by
  simp only [on_start]
  rw [hv, hb, hs]
  simp

/-- Helper: the outcome of `on_start` does not depend on the state a previous
attempt left behind. -/
theorem on_start_result_blind (env : Env) (c1 c2 o : Option String) (p : Bool)
    (s t : AppState) :
    (on_start env s c1 c2 o p).2 = (on_start env t c1 c2 o p).2 := by
  simp only [on_start]
  rw [build_pipeline_result_blind env p (c1.getD "") (c2.getD "") (o.getD "") s t]
  repeat first | rfl | split

/-- Helper: after a build-returned failure or a start failure, `on_start`
leaves the session stopped. -/
theorem on_start_teardown_paths (env : Env) (s : AppState) (c1 c2 o : Option String)
    (p : Bool)
    (h : (∃ e, (on_start env s c1 c2 o p).2 = StartResult.buildFailed e) ∨
         (on_start env s c1 c2 o p).2 = StartResult.startFailed) :
    isStopped (on_start env s c1 c2 o p).1 := by
  cases hv : validate_selection c1 c2 o env.writable with
  | some e2 =>
    rw [on_start_eq_validationFailed env s c1 c2 o p e2 hv] at h ⊢
    simp at h
  | none =>
    cases hb : (build_pipeline env s p (c1.getD "") (c2.getD "") (o.getD "")).result with
    | exc ex =>
      rw [on_start_eq_exception env s c1 c2 o p ex hv hb] at h ⊢
      simp at h
    | ret v =>
      obtain ⟨ok, err⟩ := v
      cases ok
      · rw [on_start_eq_buildFailed env s c1 c2 o p err hv hb] at h ⊢
        exact set_all_cam_status_stopped _ _
          (teardown_pipeline_stopped _ (build_pipeline_pipeline_isSome env s p _ _ _))
      · cases hs : env.startOk
        · rw [on_start_eq_startFailed env s c1 c2 o p err hv hb hs] at h ⊢
          exact set_all_cam_status_stopped _ _
            (teardown_pipeline_stopped _ (build_pipeline_pipeline_isSome env s p _ _ _))
        · rw [on_start_eq_started env s c1 c2 o p err hv hb hs] at h ⊢
          simp at h

/-- C2 (as amended): a build attempt that fails by returning an error, and a
start failure, roll the session fully back to Stopped (pipeline, selector and
pad references all cleared); and the outcome of a second attempt with
identical inputs never depends on the state a previous attempt left behind —
so when a fresh attempt would succeed, the retry succeeds too.  (Rollback is
not performed on the uncaught-exception failure path, see the
counterexample.) -/
theorem on_start_rollback_and_retry (env env2 : Env) (s : AppState)
    (c1 c2 o : Option String) (p : Bool) :
    (∀ e, (on_start env s c1 c2 o p).2 = StartResult.buildFailed e →
       isStopped (on_start env s c1 c2 o p).1) ∧
    ((on_start env s c1 c2 o p).2 = StartResult.startFailed →
       isStopped (on_start env s c1 c2 o p).1) ∧
    ((on_start env2 (on_start env s c1 c2 o p).1 c1 c2 o p).2 =
       (on_start env2 s c1 c2 o p).2) :=
  ⟨fun e he => on_start_teardown_paths env s c1 c2 o p (Or.inl ⟨e, he⟩),
   fun hs => on_start_teardown_paths env s c1 c2 o p (Or.inr hs),
   on_start_result_blind env2 c1 c2 o p _ s⟩

/-- Counterexample to C2 as stated: with the capsfilter factory missing and
everything else available, the build attempt on valid inputs fails at a
construction step, but no rollback happens — the escaping `AttributeError`
leaves the in-progress graph reference set instead of clearing it. -/
theorem build_failure_without_rollback_cex :
    (on_start envNoCaps s0 (some "/dev/video0") (some "/dev/video1")
        (some "/dev/video10") false).2 = StartResult.exception PyExc.attributeError ∧
    ¬((on_start envNoCaps s0 (some "/dev/video0") (some "/dev/video1")
        (some "/dev/video10") false).1.pipeline = none) := by
  decide

/-- Witness for C2: a failed attempt (selector missing) leaves the session
stopped, and the retry in a healthy environment succeeds. -/
theorem on_start_rollback_and_retry_witness :
    isStopped (on_start envNoIsel s0 (some "/dev/video0") (some "/dev/video1")
        (some "/dev/video10") false).1 ∧
    (on_start envGood (on_start envNoIsel s0 (some "/dev/video0") (some "/dev/video1")
        (some "/dev/video10") false).1 (some "/dev/video0") (some "/dev/video1")
        (some "/dev/video10") false).2 = StartResult.started := by
  refine ⟨(on_start_rollback_and_retry envNoIsel envGood s0 (some "/dev/video0")
      (some "/dev/video1") (some "/dev/video10") false).1
      (some BuildErr.missingInputSelector) (by decide), ?_⟩
  have h := (on_start_rollback_and_retry envNoIsel envGood s0 (some "/dev/video0")
      (some "/dev/video1") (some "/dev/video10") false).2.2
  rw [h]
  decide

/-- C1: validation checks the rules in the fixed source order all-present,
output-differs-from-both-inputs, inputs-differ, output-writable, and the first
failing rule determines the single reported error kind; in particular a triple
with `out = camA` and `camA = camB` (all present) reports
`outputCollidesWithInput`, not `duplicateInputs`. -/
theorem validation_first_failing_rule (a b o : Option String) (w : String → Bool) :
    (validate_selection a b o w = some ValidationError.incompleteSelection ↔
       ¬(truthy a = true ∧ truthy b = true ∧ truthy o = true)) ∧
    (validate_selection a b o w = some ValidationError.outputCollidesWithInput ↔
       (truthy a = true ∧ truthy b = true ∧ truthy o = true) ∧ (a = o ∨ b = o)) ∧
    (validate_selection a b o w = some ValidationError.duplicateInputs ↔
       (truthy a = true ∧ truthy b = true ∧ truthy o = true) ∧ ¬(a = o ∨ b = o) ∧ a = b) ∧
    (validate_selection a b o w = some ValidationError.outputNotWritable ↔
       (truthy a = true ∧ truthy b = true ∧ truthy o = true) ∧ ¬(a = o ∨ b = o) ∧ ¬(a = b) ∧
         w (o.getD "") = false) ∧
    (validate_selection a b o w = none ↔
       (truthy a = true ∧ truthy b = true ∧ truthy o = true) ∧ ¬(a = o ∨ b = o) ∧ ¬(a = b) ∧
         w (o.getD "") = true) ∧
    ((truthy a = true ∧ truthy b = true ∧ truthy o = true) → o = a → a = b →
       validate_selection a b o w = some ValidationError.outputCollidesWithInput) := by
  unfold validate_selection
  cases ha : truthy a <;> cases hb : truthy b <;> cases ho : truthy o <;>
    cases hw : w (o.getD "") <;>
    by_cases hao : a = o <;> by_cases hbo : b = o <;> by_cases hab : a = b <;>
    simp_all [beq_iff_eq]

/-- Witness for C1: an all-equal, all-present triple reports the output
collision, not the duplicate-inputs error. -/
theorem validation_first_failing_rule_witness :
    validate_selection (some "/dev/video0") (some "/dev/video0") (some "/dev/video0")
      (fun _ => true) = some ValidationError.outputCollidesWithInput :=
  (validation_first_failing_rule (some "/dev/video0") (some "/dev/video0")
      (some "/dev/video0") (fun _ => true)).2.2.2.2.2 (by decide) rfl rfl

/-- C7: calling `switch_to` with no pipeline returns via the silent
no-active-pipeline path and leaves the state unchanged. -/
theorem switch_to_no_pipeline_noop (s : AppState) (cam_idx : Int)
    (h : s.pipeline = none) :
    switch_to s cam_idx = (s, SwitchOutcome.noPipeline) := by
  unfold switch_to
  simp [h]

/-- Witness for C7 at the freshly constructed window state. -/
theorem switch_to_no_pipeline_noop_witness :
    switch_to s0 2 = (s0, SwitchOutcome.noPipeline) :=
  switch_to_no_pipeline_noop s0 2 rfl

/-- C6: on a running pipeline, `switch_to` to a target in {1, 2} whose pad is
attached succeeds, and a second identical call yields exactly the same state
and outcome as the first (idempotence, no error). -/
theorem switch_to_idempotent (s : AppState) (idx : Int)
    (hp : s.pipeline.isSome = true) (hi : s.input_selector.isSome = true)
    (ht : idx = 1 ∨ idx = 2)
    (hpad : (if idx == 1 then s.pad_cam1 else s.pad_cam2).isSome = true) :
    (switch_to s idx).2 = SwitchOutcome.switched ∧
    (switch_to (switch_to s idx).1 idx).2 = SwitchOutcome.switched ∧
    (switch_to (switch_to s idx).1 idx).1 = (switch_to s idx).1 ∧
    (switch_to s idx).1.active_cam = idx := by
  obtain ⟨pl, hpl⟩ := Option.isSome_iff_exists.mp hp
  obtain ⟨sel, hsel⟩ := Option.isSome_iff_exists.mp hi
  rcases ht with rfl | rfl
  · simp only [show ((1 : Int) == 1) = true from rfl, if_true] at hpad
    obtain ⟨p, hp1⟩ := Option.isSome_iff_exists.mp hpad
    simp [switch_to, set_cam_status, hpl, hsel, hp1]
  · simp at hpad
    obtain ⟨p, hp2⟩ := Option.isSome_iff_exists.mp hpad
    simp [switch_to, set_cam_status, hpl, hsel, hp2]

/-- Witness for C6: switching twice to branch 2 on a built pipeline equals a
single switch. -/
theorem switch_to_idempotent_witness :
    (switch_to sRun 2).2 = SwitchOutcome.switched ∧
    (switch_to (switch_to sRun 2).1 2).1 = (switch_to sRun 2).1 :=
  ⟨(switch_to_idempotent sRun 2 (by decide) (by decide) (Or.inr rfl) (by decide)).1,
   (switch_to_idempotent sRun 2 (by decide) (by decide) (Or.inr rfl) (by decide)).2.2.1⟩

/-- C10: on a running pipeline, any `cam_idx` other than 1 repoints the
selector to branch B's pad (`pad_cam2`) while recording `cam_idx` itself as
the active-camera state. -/
theorem switch_to_other_index_uses_branchB (s : AppState) (idx : Int)
    (hp : s.pipeline.isSome = true) (hi : s.input_selector.isSome = true)
    (hne : ¬(idx = 1)) (hpad : s.pad_cam2.isSome = true) :
    (switch_to s idx).2 = SwitchOutcome.switched ∧
    (switch_to s idx).1.selector_active_pad = s.pad_cam2 ∧
    (switch_to s idx).1.active_cam = idx := by
  obtain ⟨pl, hpl⟩ := Option.isSome_iff_exists.mp hp
  obtain ⟨sel, hsel⟩ := Option.isSome_iff_exists.mp hi
  obtain ⟨p, hp2⟩ := Option.isSome_iff_exists.mp hpad
  have hbe : (idx == 1) = false := by simpa using hne
  simp [switch_to, set_cam_status, hpl, hsel, hp2, hbe]

/-- Witness for C10: `switch_to 3` on a running pipeline switches to branch
B's pad but records 3, a value outside {1, 2}. -/
theorem switch_to_other_index_uses_branchB_witness :
    (switch_to sRun 3).2 = SwitchOutcome.switched ∧
    (switch_to sRun 3).1.selector_active_pad = sRun.pad_cam2 ∧
    (switch_to sRun 3).1.active_cam = 3 ∧ ¬((3 : Int) = 1) ∧ ¬((3 : Int) = 2) :=
  ⟨(switch_to_other_index_uses_branchB sRun 3 (by decide) (by decide) (by decide)
      (by decide)).1,
   (switch_to_other_index_uses_branchB sRun 3 (by decide) (by decide) (by decide)
      (by decide)).2.1,
   (switch_to_other_index_uses_branchB sRun 3 (by decide) (by decide) (by decide)
      (by decide)).2.2, by decide, by decide⟩

/-- C8: the persisted defaults round-trip for every selection, including the
all-null one, and the persisted object has exactly the keys cam1, cam2, out
(string or null) and preview, autoload (booleans). -/
theorem settings_round_trip (sel : Selection) :
    load_defaults_data (save_defaults_data sel) = sel ∧
    (save_defaults_data sel).map Prod.fst = ["cam1", "cam2", "out", "preview", "autoload"] ∧
    ((save_defaults_data sel).all fun kv =>
       if kv.1 == "preview" || kv.1 == "autoload" then isJsonBool kv.2
       else isStrOrNull kv.2) = true := by
  obtain ⟨c1, c2, o, p, a⟩ := sel
  refine ⟨?_, rfl, ?_⟩ <;> cases c1 <;> cases c2 <;> cases o <;> rfl

/-- Helper: a successful `gstMake` returns the element with the given factory
and name and default properties. -/
theorem gstMake_eq_some (env : Env) (f n : String) (e : Element)
    (h : gstMake env f n = some e) : e = { factory := f, name := n } := by
  unfold gstMake at h
  split at h
  · injection h with h
    exact h.symm
  · simp at h

/-- C9: the caps stage of every input branch carries the one hard-coded
format/framerate/resolution constant, independent of the environment, branch
name and device, hence identical for branch A and branch B in every build. -/
theorem branch_caps_hardcoded (env : Env) (n d : String) (br : List (Option Element))
    (h : (make_input_branch env n d).2 = Except.ok br) :
    br[4]? = some (some { factory := "capsfilter", name := "caps_" ++ n,
                          device := none, caps := some formatCaps }) ∧
    formatCaps = "video/x-raw,format=YUY2,framerate=30/1,width=1280,height=720" := by
  refine ⟨?_, rfl⟩
  unfold make_input_branch at h
  cases h1 : gstMake env "v4l2src" ("src_" ++ n) <;> rw [h1] at h
  · simp at h
  · cases h2 : gstMake env "capsfilter" ("caps_" ++ n) with
    | none =>
      rw [h2] at h
      simp at h
    | some capsElt =>
      rw [h2] at h
      obtain rfl := gstMake_eq_some env "capsfilter" ("caps_" ++ n) capsElt h2
      simp only [Except.ok.injEq] at h
      subst h
      rfl

/-- Witness for C9 at the concrete cam1 branch built in `envGood`. -/
theorem branch_caps_hardcoded_witness :
    brGood[4]? = some (some { factory := "capsfilter", name := "caps_cam1",
                              device := none, caps := some formatCaps }) :=
  (branch_caps_hardcoded envGood "cam1" "/dev/video0" brGood rfl).1


/-- Counterexample to C3 as stated: with the capsfilter factory missing
(every other stage available), `build_pipeline` raises an uncaught
`AttributeError` instead of returning a typed error value — the failure is
not recovered inside build. -/
theorem branch_stage_exception_cex :
    (build_pipeline envNoCaps s0 false "/dev/video0" "/dev/video1" "/dev/video10").result =
      PyResult.exc PyExc.attributeError := by
  decide

/-- C3 (as amended): in any build that reaches input-branch construction
(selector and output sink available, and a preview sink available when
preview is enabled), a capture-stage (v4l2src) instantiation failure makes
build return a typed error value; but build is not exception-safe for the
other stages: a format-constraint (capsfilter) stage instantiation failure
raises an uncaught `AttributeError` that escapes build, and a
colour-conversion (videoconvert) stage instantiation failure escapes as an
uncaught link-time `TypeError`. -/
theorem branch_stage_failure_modes (env : Env) (s : AppState) (pe : Bool) (d1 d2 o : String)
    (h1 : env.avail "input-selector" = true) (h2 : env.avail "v4l2sink" = true)
    (h3 : pe = true → (pick_preview_sink env).2.isSome = true) :
    (env.avail "v4l2src" = false →
       (build_pipeline env s pe d1 d2 o).result =
         PyResult.ret (false, some BuildErr.missingV4l2src)) ∧
    (env.avail "v4l2src" = true → env.avail "capsfilter" = false →
       (build_pipeline env s pe d1 d2 o).result = PyResult.exc PyExc.attributeError) ∧
    (env.avail "v4l2src" = true → env.avail "capsfilter" = true →
       env.avail "videoconvert" = false →
       (build_pipeline env s pe d1 d2 o).result = PyResult.exc PyExc.typeError) := by
  cases pe with
  | false =>
    refine ⟨?_, ?_, ?_⟩
    · intro hsrc
      simp [build_pipeline, build_core, make_input_branch, gstMake, h1, h2, hsrc]
    · intro hsrc hcaps
      simp [build_pipeline, build_core, make_input_branch, gstMake, h1, h2, hsrc, hcaps]
    · intro hsrc hcaps hconv
      simp [build_pipeline, build_core, make_input_branch, link_phase, link_branch,
        link_chain, gstMake, h1, h2, hsrc, hcaps, hconv]
  | true =>
    obtain ⟨p, hp⟩ := Option.isSome_iff_exists.mp (h3 rfl)
    refine ⟨?_, ?_, ?_⟩
    · intro hsrc
      simp [build_pipeline, build_core, make_input_branch, gstMake, h1, h2, hsrc, hp]
    · intro hsrc hcaps
      simp [build_pipeline, build_core, make_input_branch, gstMake, h1, h2, hsrc, hcaps, hp]
    · intro hsrc hcaps hconv
      simp [build_pipeline, build_core, make_input_branch, link_phase, link_branch,
        link_chain, gstMake, h1, h2, hsrc, hcaps, hconv, hp]

/-- Witness for C3: a missing capture stage yields the typed error return. -/
theorem branch_stage_failure_modes_witness :
    (build_pipeline envNoSrc s0 false "/dev/video0" "/dev/video1" "/dev/video10").result =
      PyResult.ret (false, some BuildErr.missingV4l2src) :=
  (branch_stage_failure_modes envNoSrc s0 false "/dev/video0" "/dev/video1" "/dev/video10"
      (by decide) (by decide) (by decide)).1 (by decide)

/-- Helper: pointwise predicates distribute over list append. -/
theorem mem_append_subset {α : Type} {P : α → Prop} {l1 l2 : List α}
    (h1 : ∀ f ∈ l1, P f) (h2 : ∀ f ∈ l2, P f) : ∀ f ∈ l1 ++ l2, P f := by
  intro f hf
  rcases List.mem_append.mp hf with h | h
  exacts [h1 f h, h2 f h]

/-- Helper: `make_input_branch` only ever probes the branch-stage factories. -/
theorem make_input_branch_log_factories (env : Env) (n d : String) :
    ∀ f ∈ (make_input_branch env n d).1,
      f ∈ (["videoconvert", "v4l2sink", "tee", "queue", "v4l2src", "videoscale",
            "videorate", "capsfilter"] : List String) := by
  intro f hf
  unfold make_input_branch at hf
  repeat' split at hf
  all_goals dsimp only at hf
  all_goals fin_cases hf <;> decide

/-- Helper: `build_core` only ever probes the non-preview factories. -/
theorem build_core_probes_factories (env : Env) (s : AppState) (pe : Bool)
    (d1 d2 o : String) (ps : Option Element) (isel : Element) :
    ∀ f ∈ (build_core env s pe d1 d2 o ps isel).probes,
      f ∈ (["videoconvert", "v4l2sink", "tee", "queue", "v4l2src", "videoscale",
            "videorate", "capsfilter"] : List String) := by
  have hm1 := make_input_branch_log_factories env "cam1" d1
  have hm2 := make_input_branch_log_factories env "cam2" d2
  intro f hf
  unfold build_core at hf
  cases hsink : gstMake env "v4l2sink" "outsink" with
  | none =>
    rw [hsink] at hf
    dsimp only at hf
    fin_cases hf <;> decide
  | some osink =>
    rw [hsink] at hf
    dsimp only at hf
    cases hb1 : (make_input_branch env "cam1" d1).2 with
    | error e1 =>
      rw [hb1] at hf
      cases pe <;> cases e1 <;> dsimp only at hf <;>
        exact mem_append_subset (mem_append_subset (by decide) (by decide)) hm1 f hf
    | ok br1 =>
      rw [hb1] at hf
      dsimp only at hf
      cases hb2 : (make_input_branch env "cam2" d2).2 with
      | error e2 =>
        rw [hb2] at hf
        cases pe <;> cases e2 <;> dsimp only at hf <;>
          exact mem_append_subset
            (mem_append_subset (mem_append_subset (by decide) (by decide)) hm1) hm2 f hf
      | ok br2 =>
        rw [hb2] at hf
        cases pe <;> dsimp only at hf <;>
          exact mem_append_subset
            (mem_append_subset (mem_append_subset (by decide) (by decide)) hm1) hm2 f hf

/-- C4: a preview-disabled build never probes any preview-sink factory; a
preview-enabled build (that reaches the preview step) takes the first
available sink in the fixed order gtk4paintablesink, glimagesink,
autovideosink — later candidates are never probed once one is available,
earlier ones were probed when a later one is chosen — and if all three are
unavailable it returns the no-preview-sink error. -/
theorem preview_sink_probe_policy (env : Env) (s : AppState) (d1 d2 o : String) :
    (∀ f ∈ (build_pipeline env s false d1 d2 o).probes,
       ¬(f = "gtk4paintablesink" ∨ f = "glimagesink" ∨ f = "autovideosink")) ∧
    (env.avail "input-selector" = true →
      ((env.avail "gtk4paintablesink" = true →
         (build_pipeline env s true d1 d2 o).state.preview_sink =
           some { factory := "gtk4paintablesink", name := "preview" } ∧
         "glimagesink" ∉ (build_pipeline env s true d1 d2 o).probes ∧
         "autovideosink" ∉ (build_pipeline env s true d1 d2 o).probes) ∧
       (env.avail "gtk4paintablesink" = false → env.avail "glimagesink" = true →
         (build_pipeline env s true d1 d2 o).state.preview_sink =
           some { factory := "glimagesink", name := "preview" } ∧
         "gtk4paintablesink" ∈ (build_pipeline env s true d1 d2 o).probes ∧
         "autovideosink" ∉ (build_pipeline env s true d1 d2 o).probes) ∧
       (env.avail "gtk4paintablesink" = false → env.avail "glimagesink" = false →
         env.avail "autovideosink" = true →
         (build_pipeline env s true d1 d2 o).state.preview_sink =
           some { factory := "autovideosink", name := "preview" } ∧
         "gtk4paintablesink" ∈ (build_pipeline env s true d1 d2 o).probes ∧
         "glimagesink" ∈ (build_pipeline env s true d1 d2 o).probes) ∧
       (env.avail "gtk4paintablesink" = false → env.avail "glimagesink" = false →
         env.avail "autovideosink" = false →
         (build_pipeline env s true d1 d2 o).result =
           PyResult.ret (false, some BuildErr.noPreviewSinkAvailable)))) := by
  have hcore : ∀ g ∈ (["videoconvert", "v4l2sink", "tee", "queue", "v4l2src",
      "videoscale", "videorate", "capsfilter"] : List String),
      ¬(g = "gtk4paintablesink" ∨ g = "glimagesink" ∨ g = "autovideosink") := by decide
  constructor
  · intro f hf
    cases hI : gstMake env "input-selector" "isel" with
    | none =>
      simp only [build_pipeline, hI] at hf
      fin_cases hf
      decide
    | some isel =>
      simp only [build_pipeline, hI] at hf
      rw [if_neg Bool.false_ne_true] at hf
      dsimp only at hf
      rcases List.mem_cons.mp hf with rfl | hf2
      · decide
      · exact hcore f (build_core_probes_factories env _ false d1 d2 o none isel f hf2)
  · intro hisel
    have hI : gstMake env "input-selector" "isel" =
        some { factory := "input-selector", name := "isel" } := by
      simp [gstMake, hisel]
    refine ⟨?_, ?_, ?_, ?_⟩
    · intro hgtk
      have hpick : pick_preview_sink env =
          (["gtk4paintablesink"],
           some { factory := "gtk4paintablesink", name := "preview" }) := by
        simp [pick_preview_sink, gstMake, hgtk]
      refine ⟨?_, ?_, ?_⟩
      · simp only [build_pipeline, hI]
        rw [if_pos trivial]
        simp only [hpick]
        try dsimp only
        rw [build_core_preview_sink]
      · intro hmem
        simp only [build_pipeline, hI] at hmem
        rw [if_pos trivial] at hmem
        simp only [hpick] at hmem
        try dsimp only at hmem
        rcases List.mem_cons.mp hmem with h | h
        · exact absurd h (by decide)
        · rcases List.mem_append.mp h with h | h
          · exact absurd h (by decide)
          · exact hcore _ (build_core_probes_factories env _ true d1 d2 o _ _ _ h)
              (Or.inr (Or.inl rfl))
      · intro hmem
        simp only [build_pipeline, hI] at hmem
        rw [if_pos trivial] at hmem
        simp only [hpick] at hmem
        try dsimp only at hmem
        rcases List.mem_cons.mp hmem with h | h
        · exact absurd h (by decide)
        · rcases List.mem_append.mp h with h | h
          · exact absurd h (by decide)
          · exact hcore _ (build_core_probes_factories env _ true d1 d2 o _ _ _ h)
              (Or.inr (Or.inr rfl))
    · intro hgtk hgl
      have hpick : pick_preview_sink env =
          (["gtk4paintablesink", "glimagesink"],
           some { factory := "glimagesink", name := "preview" }) := by
        simp [pick_preview_sink, gstMake, hgtk, hgl]
      refine ⟨?_, ?_, ?_⟩
      · simp only [build_pipeline, hI]
        rw [if_pos trivial]
        simp only [hpick]
        try dsimp only
        rw [build_core_preview_sink]
      · simp only [build_pipeline, hI]
        rw [if_pos trivial]
        simp only [hpick]
        try dsimp only
        exact List.mem_cons_of_mem _ (List.mem_append_left _ (by decide))
      · intro hmem
        simp only [build_pipeline, hI] at hmem
        rw [if_pos trivial] at hmem
        simp only [hpick] at hmem
        try dsimp only at hmem
        rcases List.mem_cons.mp hmem with h | h
        · exact absurd h (by decide)
        · rcases List.mem_append.mp h with h | h
          · exact absurd h (by decide)
          · exact hcore _ (build_core_probes_factories env _ true d1 d2 o _ _ _ h)
              (Or.inr (Or.inr rfl))
    · intro hgtk hgl hauto
      have hpick : pick_preview_sink env =
          (["gtk4paintablesink", "glimagesink", "autovideosink"],
           some { factory := "autovideosink", name := "preview" }) := by
        simp [pick_preview_sink, gstMake, hgtk, hgl, hauto]
      refine ⟨?_, ?_, ?_⟩
      · simp only [build_pipeline, hI]
        rw [if_pos trivial]
        simp only [hpick]
        try dsimp only
        rw [build_core_preview_sink]
      · simp only [build_pipeline, hI]
        rw [if_pos trivial]
        simp only [hpick]
        try dsimp only
        exact List.mem_cons_of_mem _ (List.mem_append_left _ (by decide))
      · simp only [build_pipeline, hI]
        rw [if_pos trivial]
        simp only [hpick]
        try dsimp only
        exact List.mem_cons_of_mem _ (List.mem_append_left _ (by decide))
    · intro hgtk hgl hauto
      have hpick : pick_preview_sink env =
          (["gtk4paintablesink", "glimagesink", "autovideosink"], none) := by
        simp [pick_preview_sink, gstMake, hgtk, hgl, hauto]
      simp only [build_pipeline, hI]
      rw [if_pos trivial]
      simp only [hpick]

/-- Witness for C4: in `envGood` the embedded gtk4 sink is chosen and the
fallback sink is never probed. -/
theorem preview_sink_probe_policy_witness :
    (build_pipeline envGood s0 true "/dev/video0" "/dev/video1"
        "/dev/video10").state.preview_sink =
      some { factory := "gtk4paintablesink", name := "preview" } ∧
    "glimagesink" ∉
      (build_pipeline envGood s0 true "/dev/video0" "/dev/video1" "/dev/video10").probes := by
  have h := ((preview_sink_probe_policy envGood s0 "/dev/video0" "/dev/video1"
      "/dev/video10").2 (by decide)).1 (by decide)
  exact ⟨h.1, h.2.1⟩

end Switcher
